import Mathlib

/-!
Shallow embedding of the inventory service of the event-driven-services demo
(`src/services/inventory-service/main.py`).

The service keeps per-product inventory records and per-reservation records in
an external key-value store, under keys "inventory:{product_id}" and
"reservation:{reservation_id}" (braces here denote interpolation in the
source).  Each gRPC handler reads a record, validates, mutates, writes back,
publishes an event on a bus, and returns a response with a success flag and a
message.

Modelling choices, all read off the source:
  * the store is a pair of partial maps keyed by the full key strings;
  * Python integers are unbounded, so quantities are `Int`;
  * `uuid.uuid4()` and `datetime.now().isoformat()` are nondeterministic
    inputs, passed as explicit `String` parameters (`freshReservationId`,
    `now`);
  * the float `unit_price` is never inspected or changed by any handler, so it
    is carried as an integer number of cents (its value is irrelevant);
  * published events are returned as a list (the bus consumes nothing);
  * each handler returns the new store state, the events published, and the
    gRPC response message.
-/

/-- Inventory record for one product, as serialized to the state store.
Fields mirror the JSON blob built in `_initialize_sample_data` and mutated by
the handlers; `last_updated` is absent at seed time, modelled as `""`. -/
structure ProductInventory where
  product_id : String
  product_name : String
  available_quantity : Int
  reserved_quantity : Int
  total_quantity : Int
  unit_price : Int
  last_updated : String
deriving DecidableEq

/-- Reservation record, as built in `ReserveInventory` (`reservation_data`). -/
structure Reservation where
  reservation_id : String
  product_id : String
  quantity : Int
  order_id : String
  customer_id : String
  created_at : String
deriving DecidableEq

/-- The external key-value store.  Inventory records live under keys
"inventory:{id}" and reservations under "reservation:{id}"; the two key
namespaces never collide, so the store is split into two maps, each keyed by
the full key string. -/
structure StoreState where
  inventory : String → Option ProductInventory
  reservations : String → Option Reservation

/-- Key of a product inventory record: the source formats "inventory:{product_id}". -/
def invKey (product_id : String) : String := "inventory:" ++ product_id

/-- Key of a reservation record: the source formats "reservation:{reservation_id}". -/
def resKey (reservation_id : String) : String := "reservation:" ++ reservation_id

/-- Effect of `save_state` on an inventory key: overwrite the value stored there. -/
def saveInventory (st : StoreState) (key : String) (value : ProductInventory) : StoreState :=
  { st with inventory := fun k => if k = key then some value else st.inventory k }

/-- Effect of `save_state` on a reservation key. -/
def saveReservation (st : StoreState) (key : String) (value : Reservation) : StoreState :=
  { st with reservations := fun k => if k = key then some value else st.reservations k }

/-- Effect of `delete_state` on a reservation key. -/
def deleteReservation (st : StoreState) (key : String) : StoreState :=
  { st with reservations := fun k => if k = key then none else st.reservations k }

/-- Event envelope published by `_publish_inventory_event`, one constructor per
event type with the payload fields the source puts in `data`.  The envelope's
`event_id` and `timestamp` are fresh nondeterministic values never read back by
this service and are omitted from the model. -/
inductive InventoryEvent
  | reserved (product_id : String) (quantity : Int) (order_id : String)
      (reservation_id : String) (available_quantity : Int)
  | released (product_id : String) (quantity : Int) (order_id : String)
      (available_quantity : Int)
  | updated (product_id : String) (quantity_change : Int) (reason : String)
      (new_quantity : Int)
deriving DecidableEq

/-- Request message of `CheckAvailability`. -/
structure CheckAvailabilityRequest where
  product_id : String
  quantity : Int
deriving DecidableEq

/-- Response message of `CheckAvailability`. -/
structure CheckAvailabilityResponse where
  available : Bool
  available_quantity : Int
  message : String
deriving DecidableEq

/-- Request message of `ReserveInventory`. -/
structure ReserveInventoryRequest where
  product_id : String
  quantity : Int
  order_id : String
  customer_id : String
deriving DecidableEq

/-- Response message of `ReserveInventory`; proto3 default for an unset
`reservation_id` is the empty string. -/
structure ReserveInventoryResponse where
  success : Bool
  reservation_id : String
  message : String
deriving DecidableEq

/-- Request message of `ReleaseInventory`; an omitted `reservation_id` is the
proto3 default `""`, which is falsy in the handler's `if request.reservation_id`. -/
structure ReleaseInventoryRequest where
  product_id : String
  quantity : Int
  order_id : String
  reservation_id : String
deriving DecidableEq

/-- Response message of `ReleaseInventory`. -/
structure ReleaseInventoryResponse where
  success : Bool
  message : String
deriving DecidableEq

/-- Request message of `UpdateInventory`. -/
structure UpdateInventoryRequest where
  product_id : String
  quantity_change : Int
  reason : String
deriving DecidableEq

/-- Response message of `UpdateInventory`; a response built without the
`inventory` field is modelled as `none`. -/
structure UpdateInventoryResponse where
  success : Bool
  inventory : Option ProductInventory
  message : String
deriving DecidableEq

/-- Handler `CheckAvailability` (main.py lines 82-119), fault-free path: read
the inventory record; absent data means "Product not found" with quantity 0;
otherwise report whether `available_quantity >= quantity`.  No write and no
event; the handler returns the store unchanged. -/
def CheckAvailability (st : StoreState) (req : CheckAvailabilityRequest) :
    StoreState × CheckAvailabilityResponse :=
  match st.inventory (invKey req.product_id) with
  | none =>
      (st, { available := false, available_quantity := 0, message := "Product not found" })
  | some inv =>
      let is_available : Bool := decide (inv.available_quantity ≥ req.quantity)
      (st, { available := is_available,
             available_quantity := inv.available_quantity,
             message := if is_available then "Available" else "Insufficient inventory" })

/-- Handler `ReserveInventory` (main.py lines 121-200), fault-free path: read
the record (absent means failure "Product not found"); fail with "Insufficient
inventory" when `available_quantity < quantity`; otherwise decrement available,
increment reserved, stamp `last_updated`, write the record back, store a
reservation record under the fresh id, publish an `inventory.reserved` event
and return success with the reservation id. -/
def ReserveInventory (st : StoreState) (req : ReserveInventoryRequest)
    (freshReservationId now : String) :
    StoreState × List InventoryEvent × ReserveInventoryResponse :=
  match st.inventory (invKey req.product_id) with
  | none =>
      (st, [], { success := false, reservation_id := "", message := "Product not found" })
  | some inv =>
      if inv.available_quantity < req.quantity then
        (st, [], { success := false, reservation_id := "", message := "Insufficient inventory" })
      else
        let inv2 : ProductInventory :=
          { inv with available_quantity := inv.available_quantity - req.quantity,
                     reserved_quantity := inv.reserved_quantity + req.quantity,
                     last_updated := now }
        let st2 := saveInventory st (invKey req.product_id) inv2
        let st3 := saveReservation st2 (resKey freshReservationId)
          { reservation_id := freshReservationId, product_id := req.product_id,
            quantity := req.quantity, order_id := req.order_id,
            customer_id := req.customer_id, created_at := now }
        (st3,
         [InventoryEvent.reserved req.product_id req.quantity req.order_id
            freshReservationId inv2.available_quantity],
         { success := true, reservation_id := freshReservationId,
           message := "Inventory reserved successfully" })

/-- Handler `ReleaseInventory` (main.py lines 202-260), fault-free path: read
the record (absent means failure "Product not found"); increment available,
decrement reserved with no floor check, stamp `last_updated`, write back;
delete the reservation record only when a nonempty `reservation_id` was
supplied; publish an `inventory.released` event and return success. -/
def ReleaseInventory (st : StoreState) (req : ReleaseInventoryRequest) (now : String) :
    StoreState × List InventoryEvent × ReleaseInventoryResponse :=
  match st.inventory (invKey req.product_id) with
  | none =>
      (st, [], { success := false, message := "Product not found" })
  | some inv =>
      let inv2 : ProductInventory :=
        { inv with available_quantity := inv.available_quantity + req.quantity,
                   reserved_quantity := inv.reserved_quantity - req.quantity,
                   last_updated := now }
      let st2 := saveInventory st (invKey req.product_id) inv2
      let st3 := if req.reservation_id = "" then st2
                 else deleteReservation st2 (resKey req.reservation_id)
      (st3,
       [InventoryEvent.released req.product_id req.quantity req.order_id
          inv2.available_quantity],
       { success := true, message := "Inventory released successfully" })

/-- Handler `UpdateInventory` (main.py lines 262-331), fault-free path: read
the record (absent means failure "Product not found"); add `quantity_change` to
both `total_quantity` and `available_quantity`, stamp `last_updated`, then
clamp each of the two quantities at zero independently; write back, publish an
`inventory.updated` event, and return success with the updated record. -/
def UpdateInventory (st : StoreState) (req : UpdateInventoryRequest) (now : String) :
    StoreState × List InventoryEvent × UpdateInventoryResponse :=
  match st.inventory (invKey req.product_id) with
  | none =>
      (st, [], { success := false, inventory := none, message := "Product not found" })
  | some inv =>
      let total1 := inv.total_quantity + req.quantity_change
      let avail1 := inv.available_quantity + req.quantity_change
      let inv2 : ProductInventory :=
        { inv with total_quantity := if total1 < 0 then 0 else total1,
                   available_quantity := if avail1 < 0 then 0 else avail1,
                   last_updated := now }
      let st2 := saveInventory st (invKey req.product_id) inv2
      (st2,
       [InventoryEvent.updated req.product_id req.quantity_change req.reason
          inv2.available_quantity],
       { success := true, inventory := some inv2,
         message := "Inventory updated successfully" })

/-- Sequential execution of a list of `ReserveInventory` calls; each list entry
carries the request, the fresh reservation id, and the timestamp for that call.
Returns the final store and whether every call reported success. -/
def runReserves : StoreState → List (ReserveInventoryRequest × String × String) →
    StoreState × Bool
  | st, [] => (st, true)
  | st, c :: rest =>
      let r := ReserveInventory st c.1 c.2.1 c.2.2
      let t := runReserves r.1 rest
      (t.1, r.2.2.success && t.2)

/-- Total quantity requested by a list of reserve calls. -/
def sumQuantities (calls : List (ReserveInventoryRequest × String × String)) : Int :=
  (calls.map (fun c => c.1.quantity)).sum

/-- The gRPC status the handler leaves on the call context: `ok` is the
default, `internal` the `grpc.StatusCode.INTERNAL` set in every `except`
branch. -/
inductive GrpcCode
  | ok
  | internal
deriving DecidableEq

/-- Fault injection for the external collaborators: each flag makes the
corresponding Dapr client call raise an exception.  A raising `save_state` or
`delete_state` is modelled as performing no write.  An exception raised by
`publish_event` is caught and swallowed inside `_publish_inventory_event`
itself, so it drops the event without aborting the handler. -/
structure FaultModel where
  getStateExn : Bool
  saveInventoryExn : Bool
  saveReservationExn : Bool
  deleteReservationExn : Bool
  publishExn : Bool
deriving DecidableEq

/-- Fault model in which no collaborator call raises. -/
def noFaults : FaultModel :=
  { getStateExn := false, saveInventoryExn := false, saveReservationExn := false,
    deleteReservationExn := false, publishExn := false }

/-- Handler `CheckAvailability` with its `try/except` structure: any exception
raised by `get_state` is caught, logged, `INTERNAL` is set on the context, and
a success-shaped response with message "Internal error" is returned — the
handler itself never propagates the exception. -/
def checkAvailabilityRPC (faults : FaultModel) (st : StoreState)
    (req : CheckAvailabilityRequest) :
    StoreState × CheckAvailabilityResponse × GrpcCode :=
  if faults.getStateExn then
    (st, { available := false, available_quantity := 0, message := "Internal error" },
     GrpcCode.internal)
  else
    let r := CheckAvailability st req
    (r.1, r.2, GrpcCode.ok)

/-- Handler `ReserveInventory` with its `try/except` structure: an exception
from `get_state` or either `save_state` aborts the remaining effects, is
caught at the handler, sets `INTERNAL`, and yields a success=false "Internal
error" response; a publish failure is swallowed inside the publish helper. -/
def reserveInventoryRPC (faults : FaultModel) (st : StoreState)
    (req : ReserveInventoryRequest) (freshReservationId now : String) :
    StoreState × List InventoryEvent × ReserveInventoryResponse × GrpcCode :=
  if faults.getStateExn then
    (st, [], { success := false, reservation_id := "", message := "Internal error" },
     GrpcCode.internal)
  else
    match st.inventory (invKey req.product_id) with
    | none =>
        (st, [], { success := false, reservation_id := "", message := "Product not found" },
         GrpcCode.ok)
    | some inv =>
        if inv.available_quantity < req.quantity then
          (st, [],
           { success := false, reservation_id := "", message := "Insufficient inventory" },
           GrpcCode.ok)
        else if faults.saveInventoryExn then
          (st, [], { success := false, reservation_id := "", message := "Internal error" },
           GrpcCode.internal)
        else
          let inv2 : ProductInventory :=
            { inv with available_quantity := inv.available_quantity - req.quantity,
                       reserved_quantity := inv.reserved_quantity + req.quantity,
                       last_updated := now }
          let st2 := saveInventory st (invKey req.product_id) inv2
          if faults.saveReservationExn then
            (st2, [],
             { success := false, reservation_id := "", message := "Internal error" },
             GrpcCode.internal)
          else
            let st3 := saveReservation st2 (resKey freshReservationId)
              { reservation_id := freshReservationId, product_id := req.product_id,
                quantity := req.quantity, order_id := req.order_id,
                customer_id := req.customer_id, created_at := now }
            let evs := if faults.publishExn then ([] : List InventoryEvent)
              else [InventoryEvent.reserved req.product_id req.quantity req.order_id
                      freshReservationId inv2.available_quantity]
            (st3, evs,
             { success := true, reservation_id := freshReservationId,
               message := "Inventory reserved successfully" },
             GrpcCode.ok)

/-- Handler `ReleaseInventory` with its `try/except` structure; note that an
exception from `delete_state` occurs after the inventory write-back has
already persisted. -/
def releaseInventoryRPC (faults : FaultModel) (st : StoreState)
    (req : ReleaseInventoryRequest) (now : String) :
    StoreState × List InventoryEvent × ReleaseInventoryResponse × GrpcCode :=
  if faults.getStateExn then
    (st, [], { success := false, message := "Internal error" }, GrpcCode.internal)
  else
    match st.inventory (invKey req.product_id) with
    | none =>
        (st, [], { success := false, message := "Product not found" }, GrpcCode.ok)
    | some inv =>
        if faults.saveInventoryExn then
          (st, [], { success := false, message := "Internal error" }, GrpcCode.internal)
        else
          let inv2 : ProductInventory :=
            { inv with available_quantity := inv.available_quantity + req.quantity,
                       reserved_quantity := inv.reserved_quantity - req.quantity,
                       last_updated := now }
          let st2 := saveInventory st (invKey req.product_id) inv2
          if req.reservation_id ≠ "" && faults.deleteReservationExn then
            (st2, [], { success := false, message := "Internal error" }, GrpcCode.internal)
          else
            let st3 := if req.reservation_id = "" then st2
                       else deleteReservation st2 (resKey req.reservation_id)
            let evs := if faults.publishExn then ([] : List InventoryEvent)
              else [InventoryEvent.released req.product_id req.quantity req.order_id
                      inv2.available_quantity]
            (st3, evs, { success := true, message := "Inventory released successfully" },
             GrpcCode.ok)

/-- Handler `UpdateInventory` with its `try/except` structure. -/
def updateInventoryRPC (faults : FaultModel) (st : StoreState)
    (req : UpdateInventoryRequest) (now : String) :
    StoreState × List InventoryEvent × UpdateInventoryResponse × GrpcCode :=
  if faults.getStateExn then
    (st, [], { success := false, inventory := none, message := "Internal error" },
     GrpcCode.internal)
  else
    match st.inventory (invKey req.product_id) with
    | none =>
        (st, [], { success := false, inventory := none, message := "Product not found" },
         GrpcCode.ok)
    | some inv =>
        if faults.saveInventoryExn then
          (st, [], { success := false, inventory := none, message := "Internal error" },
           GrpcCode.internal)
        else
          let total1 := inv.total_quantity + req.quantity_change
          let avail1 := inv.available_quantity + req.quantity_change
          let inv2 : ProductInventory :=
            { inv with total_quantity := if total1 < 0 then 0 else total1,
                       available_quantity := if avail1 < 0 then 0 else avail1,
                       last_updated := now }
          let st2 := saveInventory st (invKey req.product_id) inv2
          let evs := if faults.publishExn then ([] : List InventoryEvent)
            else [InventoryEvent.updated req.product_id req.quantity_change req.reason
                    inv2.available_quantity]
          (st2, evs,
           { success := true, inventory := some inv2,
             message := "Inventory updated successfully" },
           GrpcCode.ok)

/-- Seed record of product "prod-001" from `_initialize_sample_data` (the
float price 999.99 carried as cents). -/
def prod001 : ProductInventory :=
  { product_id := "prod-001", product_name := "Laptop Computer",
    available_quantity := 50, reserved_quantity := 0, total_quantity := 50,
    unit_price := 99999, last_updated := "" }

/-- Concrete store holding only the seeded "prod-001" record. -/
def sampleStore : StoreState :=
  { inventory := fun k => if k = invKey ("prod-001") then some prod001 else none,
    reservations := fun _ => none }

/-- Variant of "prod-001" whose reserved quantity is already 5 before any call
of this session (with the books balanced: 45 + 5 = 50). -/
def prod001r5 : ProductInventory :=
  { product_id := "prod-001", product_name := "Laptop Computer",
    available_quantity := 45, reserved_quantity := 5, total_quantity := 50,
    unit_price := 99999, last_updated := "" }

/-- Concrete store holding "prod-001" with 5 units already reserved. -/
def sampleStoreR5 : StoreState :=
  { inventory := fun k => if k = invKey ("prod-001") then some prod001r5 else none,
    reservations := fun _ => none }

/-- Reserve request for 10 units of "prod-001" (the worked example of the spec). -/
def reserveReq10 : ReserveInventoryRequest :=
  { product_id := "prod-001", quantity := 10, order_id := "order-1",
    customer_id := "cust-1" }

/-- Release request for 10 units of "prod-001" carrying a reservation id. -/
def releaseReq10 : ReleaseInventoryRequest :=
  { product_id := "prod-001", quantity := 10, order_id := "order-1",
    reservation_id := "rid-1" }

/-- Release request for 10 units of "prod-001" with the reservation id omitted
(proto3 default empty string). -/
def releaseReq10NoId : ReleaseInventoryRequest :=
  { product_id := "prod-001", quantity := 10, order_id := "order-1",
    reservation_id := "" }

/-- Availability query for 10 units of "prod-001". -/
def checkReq10 : CheckAvailabilityRequest :=
  { product_id := "prod-001", quantity := 10 }

/-- Reserve request naming a product id with no record in the store. -/
def reserveReqUnknown : ReserveInventoryRequest :=
  { product_id := "prod-404", quantity := 1, order_id := "order-9",
    customer_id := "cust-9" }

/-- Release request naming a product id with no record in the store. -/
def releaseReqUnknown : ReleaseInventoryRequest :=
  { product_id := "prod-404", quantity := 1, order_id := "order-9",
    reservation_id := "rid-9" }

/-- Adjustment request removing 48 units of "prod-001". -/
def updateReqNeg48 : UpdateInventoryRequest :=
  { product_id := "prod-001", quantity_change := -48, reason := "shrinkage" }

/-- Fault model in which only the initial `get_state` call raises. -/
def faultGet : FaultModel :=
  { getStateExn := true, saveInventoryExn := false, saveReservationExn := false,
    deleteReservationExn := false, publishExn := false }

/-- A single reserve call of 10 units of "prod-001" with fresh id "rid-1". -/
def c2Calls : List (ReserveInventoryRequest × String × String) :=
  [(reserveReq10, "rid-1", "t1")]

/-- Projection: available quantity of an optionally present inventory record. -/
def invAvailable (o : Option ProductInventory) : Option Int :=
  o.map fun p => p.available_quantity

/-- Projection: reserved quantity of an optionally present inventory record. -/
def invReserved (o : Option ProductInventory) : Option Int :=
  o.map fun p => p.reserved_quantity

/-- Projection: total quantity of an optionally present inventory record. -/
def invTotal (o : Option ProductInventory) : Option Int :=
  o.map fun p => p.total_quantity

/-- Projection: sum of available and reserved quantities of an optionally
present inventory record. -/
def invAvailPlusReserved (o : Option ProductInventory) : Option Int :=
  o.map fun p => p.available_quantity + p.reserved_quantity

/-- Whether an optionally present inventory record satisfies the ledger
invariant `total_quantity = available_quantity + reserved_quantity` stated in
the data model (absent records do not satisfy it). -/
def invariantHolds : Option ProductInventory → Bool
  | none => false
  | some p => decide (p.total_quantity = p.available_quantity + p.reserved_quantity)

/-- Request message of `GetInventory`. -/
structure GetInventoryRequest where
  product_id : String
deriving DecidableEq

/-- Response message of `GetInventory`; a response built without the
`inventory` field is modelled as `none`. -/
structure GetInventoryResponse where
  success : Bool
  inventory : Option ProductInventory
  message : String
deriving DecidableEq

/-- Handler `GetInventory` (main.py lines 333-376), fault-free path: read the
inventory record; absent data means failure "Product not found"; otherwise
return the record (its `last_updated` read with default "", which every
modelled record carries) with success=true.  No write and no event; the
handler returns the store unchanged. -/
def GetInventory (st : StoreState) (req : GetInventoryRequest) :
    StoreState × GetInventoryResponse :=
  match st.inventory (invKey req.product_id) with
  | none =>
      (st, { success := false, inventory := none, message := "Product not found" })
  | some inv =>
      (st, { success := true, inventory := some inv,
             message := "Inventory retrieved successfully" })

/-- Handler `GetInventory` with its `try/except` structure: an exception raised
by `get_state` is caught, logged, `INTERNAL` is set on the context, and a
success=false "Internal error" response is returned — the handler itself never
propagates the exception. -/
def getInventoryRPC (faults : FaultModel) (st : StoreState)
    (req : GetInventoryRequest) :
    StoreState × GetInventoryResponse × GrpcCode :=
  if faults.getStateExn then
    (st, { success := false, inventory := none, message := "Internal error" },
     GrpcCode.internal)
  else
    let r := GetInventory st req
    (r.1, r.2, GrpcCode.ok)

/-- Inventory query for "prod-001". -/
def getReq001 : GetInventoryRequest :=
  { product_id := "prod-001" }

/-!
Lemmas shared by the theorems below.
-/

/-- Writing an inventory record does not change the reservations map. -/
lemma saveInventory_reservations (st : StoreState) (k : String) (v : ProductInventory) :
    (saveInventory st k v).reservations = st.reservations := rfl

/-- Writing a reservation record does not change the inventory map. -/
lemma saveReservation_inventory (st : StoreState) (k : String) (v : Reservation) :
    (saveReservation st k v).inventory = st.inventory := rfl

/-- Deleting a reservation record does not change the inventory map. -/
lemma deleteReservation_inventory (st : StoreState) (k : String) :
    (deleteReservation st k).inventory = st.inventory := rfl

/-- Reading back the inventory key just written yields the written record. -/
lemma saveInventory_lookup_self (st : StoreState) (k : String) (v : ProductInventory) :
    (saveInventory st k v).inventory k = some v := by
  simp [saveInventory]

/-- C3: `CheckAvailability` answers `available = true` exactly when the stored
`available_quantity` is at least the requested quantity; on a missing record it
answers `available = false` with quantity 0 and message "Product not found";
and in every case it returns the store unchanged. -/
theorem checkAvailability_spec (st : StoreState) (req : CheckAvailabilityRequest) :
    (CheckAvailability st req).1 = st ∧
    (st.inventory (invKey req.product_id) = none →
      (CheckAvailability st req).2 =
        { available := false, available_quantity := 0, message := "Product not found" }) ∧
    (∀ inv, st.inventory (invKey req.product_id) = some inv →
      (CheckAvailability st req).2.available_quantity = inv.available_quantity ∧
      ((CheckAvailability st req).2.available = true ↔ req.quantity ≤ inv.available_quantity)) := by
  rcases h : st.inventory (invKey req.product_id) with _ | inv <;>
    simp [CheckAvailability, h, ge_iff_le]

/-- Witness for C3 at the seeded store: 10 units of "prod-001" are available
out of the stored 50. -/
theorem checkAvailability_spec_witness :
    (CheckAvailability sampleStore checkReq10).2.available = true := by
  have h := checkAvailability_spec sampleStore checkReq10
  exact ((h.2.2 prod001 (by decide)).2).mpr (by decide)

/-- C6: when no record exists for the requested product id, `ReserveInventory`
returns success=false with message exactly "Product not found", publishes no
event, and leaves the store untouched (the result is literally the input store
with an empty event list). -/
theorem reserveInventory_unknown_product (st : StoreState) (req : ReserveInventoryRequest)
    (rid now : String)
    (h : st.inventory (invKey req.product_id) = none) :
    ReserveInventory st req rid now =
      (st, [], { success := false, reservation_id := "", message := "Product not found" }) := by
  simp [ReserveInventory, h]

/-- Witness for C6: reserving the unseeded "prod-404" fails without effects. -/
theorem reserveInventory_unknown_product_witness :
    ReserveInventory sampleStore reserveReqUnknown ("rid-9") ("t9") =
      (sampleStore, [],
       { success := false, reservation_id := "", message := "Product not found" }) :=
  reserveInventory_unknown_product sampleStore reserveReqUnknown ("rid-9") ("t9") (by decide)

/-- C10: when no record exists for the requested product id, `ReleaseInventory`
returns success=false with message exactly "Product not found", writes nothing,
deletes no reservation record, and publishes no event — the result is literally
the input store with an empty event list. -/
theorem releaseInventory_unknown_product (st : StoreState) (req : ReleaseInventoryRequest)
    (now : String)
    (h : st.inventory (invKey req.product_id) = none) :
    ReleaseInventory st req now =
      (st, [], { success := false, message := "Product not found" }) := by
  simp [ReleaseInventory, h]

/-- Witness for C10: releasing on the unseeded "prod-404" fails without effects. -/
theorem releaseInventory_unknown_product_witness :
    ReleaseInventory sampleStore releaseReqUnknown ("t9") =
      (sampleStore, [], { success := false, message := "Product not found" }) :=
  releaseInventory_unknown_product sampleStore releaseReqUnknown ("t9") (by decide)

/-- C4: on an existing record, `ReleaseInventory` adds the requested quantity
to `available_quantity` and subtracts it from `reserved_quantity` with no floor
or validation check, stamps `last_updated`, and writes the record back; in
particular, releasing 10 units of the seeded "prod-001" (whose reserved
quantity is 0) drives the stored `reserved_quantity` to the negative value -10. -/
theorem releaseInventory_no_floor (st : StoreState) (req : ReleaseInventoryRequest)
    (now : String) (inv : ProductInventory)
    (h : st.inventory (invKey req.product_id) = some inv) :
    (ReleaseInventory st req now).1.inventory (invKey req.product_id) =
      some { inv with available_quantity := inv.available_quantity + req.quantity,
                      reserved_quantity := inv.reserved_quantity - req.quantity,
                      last_updated := now } ∧
    (ReleaseInventory st req now).2.2.success = true ∧
    invReserved ((ReleaseInventory sampleStore releaseReq10 ("t1")).1.inventory
        (invKey ("prod-001"))) = some (-10) ∧
    ((-10 : Int) < 0) := by
  refine ⟨?_, ?_, by decide, by decide⟩
  · unfold ReleaseInventory
    rw [h]
    by_cases hid : req.reservation_id = "" <;>
      simp [hid, saveInventory, deleteReservation]
  · simp [ReleaseInventory, h]

/-- Witness for C4: releasing 10 units of the seeded "prod-001" stores
available 60, reserved -10. -/
theorem releaseInventory_no_floor_witness :
    (ReleaseInventory sampleStore releaseReq10 ("t1")).1.inventory (invKey ("prod-001")) =
      some { product_id := "prod-001", product_name := "Laptop Computer",
             available_quantity := 60, reserved_quantity := -10, total_quantity := 50,
             unit_price := 99999, last_updated := "t1" } ∧
    (ReleaseInventory sampleStore releaseReq10 ("t1")).2.2.success = true ∧
    invReserved ((ReleaseInventory sampleStore releaseReq10 ("t1")).1.inventory
        (invKey ("prod-001"))) = some (-10) ∧
    ((-10 : Int) < 0) :=
  releaseInventory_no_floor sampleStore releaseReq10 ("t1") prod001 (by decide)

/-- C5: on an existing record, `UpdateInventory` adds the delta to both
`total_quantity` and `available_quantity` and floors each at zero
independently; concretely, on "prod-001" holding total 50 = available 45 +
reserved 5, the delta -48 leaves total 2 but floors available at 0, so the
stored record no longer satisfies total = available + reserved. -/
theorem updateInventory_floor_desync (st : StoreState) (req : UpdateInventoryRequest)
    (now : String) (inv : ProductInventory)
    (h : st.inventory (invKey req.product_id) = some inv) :
    (UpdateInventory st req now).1.inventory (invKey req.product_id) =
      some { inv with
        total_quantity :=
          if inv.total_quantity + req.quantity_change < 0 then 0
          else inv.total_quantity + req.quantity_change,
        available_quantity :=
          if inv.available_quantity + req.quantity_change < 0 then 0
          else inv.available_quantity + req.quantity_change,
        last_updated := now } ∧
    (prod001r5.total_quantity = prod001r5.available_quantity + prod001r5.reserved_quantity) ∧
    invariantHolds ((UpdateInventory sampleStoreR5 updateReqNeg48 ("t1")).1.inventory
        (invKey ("prod-001"))) = false := by
  refine ⟨?_, by decide, by decide⟩
  unfold UpdateInventory
  rw [h]
  simp [saveInventory]

/-- Witness for C5: adjusting "prod-001" (available 45, reserved 5, total 50)
by -48 stores total 2, available 0, reserved 5, breaking the invariant. -/
theorem updateInventory_floor_desync_witness :
    (UpdateInventory sampleStoreR5 updateReqNeg48 ("t1")).1.inventory (invKey ("prod-001")) =
      some { product_id := "prod-001", product_name := "Laptop Computer",
             available_quantity := 0, reserved_quantity := 5, total_quantity := 2,
             unit_price := 99999, last_updated := "t1" } ∧
    (prod001r5.total_quantity = prod001r5.available_quantity + prod001r5.reserved_quantity) ∧
    invariantHolds ((UpdateInventory sampleStoreR5 updateReqNeg48 ("t1")).1.inventory
        (invKey ("prod-001"))) = false :=
  updateInventory_floor_desync sampleStoreR5 updateReqNeg48 ("t1") prod001r5 (by decide)

/-- C7: when the release request carries no reservation_id (the proto3 default
empty string) and the product record exists, `ReleaseInventory` performs no
write or delete on any reservation record — the reservations map of the
resulting store is exactly the input one (the handler's only reservation
access, `delete_state`, sits behind `if request.reservation_id`) — and the
call returns success=true. -/
theorem releaseInventory_noid_frame (st : StoreState) (req : ReleaseInventoryRequest)
    (now : String) (inv : ProductInventory)
    (hid : req.reservation_id = "")
    (h : st.inventory (invKey req.product_id) = some inv) :
    (ReleaseInventory st req now).1.reservations = st.reservations ∧
    (ReleaseInventory st req now).2.2.success = true := by
  constructor
  · unfold ReleaseInventory
    rw [h]
    simp [hid, saveInventory]
  · simp [ReleaseInventory, h]

/-- Witness for C7: an id-less release of 10 units of "prod-001" succeeds and
leaves the reservations map of the seeded store intact. -/
theorem releaseInventory_noid_frame_witness :
    (ReleaseInventory sampleStore releaseReq10NoId ("t1")).1.reservations =
      sampleStore.reservations ∧
    (ReleaseInventory sampleStore releaseReq10NoId ("t1")).2.2.success = true :=
  releaseInventory_noid_frame sampleStore releaseReq10NoId ("t1") prod001
    (by decide) (by decide)

/-- C1: `ReserveInventory` fails with "Product not found" when the record is
absent and with "Insufficient inventory" when the stored available quantity is
below the request; otherwise it decrements available by the quantity,
increments reserved by the quantity, stamps `last_updated`, writes the record
back, stores a reservation record under the supplied fresh (previously unused)
reservation id, and returns success=true carrying that id. -/
theorem reserveInventory_spec (st : StoreState) (req : ReserveInventoryRequest)
    (rid now : String)
    (hfresh : st.reservations (resKey rid) = none) :
    (st.inventory (invKey req.product_id) = none →
      ReserveInventory st req rid now =
        (st, [], { success := false, reservation_id := "", message := "Product not found" })) ∧
    (∀ inv, st.inventory (invKey req.product_id) = some inv →
      (inv.available_quantity < req.quantity →
        ReserveInventory st req rid now =
          (st, [],
           { success := false, reservation_id := "", message := "Insufficient inventory" })) ∧
      (¬ inv.available_quantity < req.quantity →
        (ReserveInventory st req rid now).1.inventory (invKey req.product_id) =
          some { inv with available_quantity := inv.available_quantity - req.quantity,
                          reserved_quantity := inv.reserved_quantity + req.quantity,
                          last_updated := now } ∧
        (ReserveInventory st req rid now).1.reservations (resKey rid) =
          some { reservation_id := rid, product_id := req.product_id,
                 quantity := req.quantity, order_id := req.order_id,
                 customer_id := req.customer_id, created_at := now } ∧
        (ReserveInventory st req rid now).2.2 =
          { success := true, reservation_id := rid,
            message := "Inventory reserved successfully" })) := by
  refine ⟨fun h => by simp [ReserveInventory, h], fun inv h => ⟨fun hlt => ?_, fun hge => ?_⟩⟩
  · simp [ReserveInventory, h, hlt]
  · refine ⟨?_, ?_, ?_⟩ <;>
      simp [ReserveInventory, h, hge, saveInventory, saveReservation]

/-- Witness for C1 at the spec's worked example: reserving 10 of the seeded
"prod-001" under fresh id "rid-1" stores available 40, reserved 10, creates
the reservation record, and returns success with "rid-1". -/
theorem reserveInventory_spec_witness :
    (ReserveInventory sampleStore reserveReq10 ("rid-1") ("t1")).1.inventory
        (invKey ("prod-001")) =
      some { product_id := "prod-001", product_name := "Laptop Computer",
             available_quantity := 40, reserved_quantity := 10, total_quantity := 50,
             unit_price := 99999, last_updated := "t1" } ∧
    (ReserveInventory sampleStore reserveReq10 ("rid-1") ("t1")).1.reservations
        (resKey ("rid-1")) =
      some { reservation_id := "rid-1", product_id := "prod-001", quantity := 10,
             order_id := "order-1", customer_id := "cust-1", created_at := "t1" } ∧
    (ReserveInventory sampleStore reserveReq10 ("rid-1") ("t1")).2.2 =
      { success := true, reservation_id := "rid-1",
        message := "Inventory reserved successfully" } :=
  ((reserveInventory_spec sampleStore reserveReq10 ("rid-1") ("t1") (by decide)).2
    prod001 (by decide)).2 (by decide)

/-- C9: a successful `ReserveInventory` and a successful `ReleaseInventory`
each leave `total_quantity` unchanged and leave the sum
`available_quantity + reserved_quantity` unchanged, so each preserves the
ledger invariant `total = available + reserved` whenever it held before the
call (only `UpdateInventory` can break it). -/
theorem reserve_release_preserve_invariant
    (st stL : StoreState) (reqR : ReserveInventoryRequest) (rid now : String)
    (reqL : ReleaseInventoryRequest) (nowL : String)
    (invR invL : ProductInventory)
    (hR : st.inventory (invKey reqR.product_id) = some invR)
    (hRq : ¬ invR.available_quantity < reqR.quantity)
    (hL : stL.inventory (invKey reqL.product_id) = some invL) :
    (invTotal ((ReserveInventory st reqR rid now).1.inventory (invKey reqR.product_id)) =
        some invR.total_quantity ∧
     invAvailPlusReserved ((ReserveInventory st reqR rid now).1.inventory
        (invKey reqR.product_id)) =
        some (invR.available_quantity + invR.reserved_quantity) ∧
     (invR.total_quantity = invR.available_quantity + invR.reserved_quantity →
       invariantHolds ((ReserveInventory st reqR rid now).1.inventory
          (invKey reqR.product_id)) = true)) ∧
    (invTotal ((ReleaseInventory stL reqL nowL).1.inventory (invKey reqL.product_id)) =
        some invL.total_quantity ∧
     invAvailPlusReserved ((ReleaseInventory stL reqL nowL).1.inventory
        (invKey reqL.product_id)) =
        some (invL.available_quantity + invL.reserved_quantity) ∧
     (invL.total_quantity = invL.available_quantity + invL.reserved_quantity →
       invariantHolds ((ReleaseInventory stL reqL nowL).1.inventory
          (invKey reqL.product_id)) = true)) := by
  have hResLookup : (ReserveInventory st reqR rid now).1.inventory (invKey reqR.product_id) =
      some { invR with available_quantity := invR.available_quantity - reqR.quantity,
                       reserved_quantity := invR.reserved_quantity + reqR.quantity,
                       last_updated := now } := by
    simp [ReserveInventory, hR, hRq, saveInventory, saveReservation]
  have hRelLookup : (ReleaseInventory stL reqL nowL).1.inventory (invKey reqL.product_id) =
      some { invL with available_quantity := invL.available_quantity + reqL.quantity,
                       reserved_quantity := invL.reserved_quantity - reqL.quantity,
                       last_updated := nowL } := by
    unfold ReleaseInventory
    rw [hL]
    by_cases hid : reqL.reservation_id = "" <;>
      simp [hid, saveInventory, deleteReservation]
  refine ⟨⟨?_, ?_, fun hi => ?_⟩, ⟨?_, ?_, fun hi => ?_⟩⟩ <;>
    simp [hResLookup, hRelLookup, invTotal, invAvailPlusReserved, invariantHolds]
  · omega
  · omega

/-- Witness for C9: reserving 10 and (separately) releasing 10 on the seeded
"prod-001" both keep total 50 and available + reserved = 50, preserving the
invariant. -/
theorem reserve_release_preserve_invariant_witness :
    invTotal ((ReserveInventory sampleStore reserveReq10 ("rid-1") ("t1")).1.inventory
        (invKey ("prod-001"))) = some 50 ∧
    invAvailPlusReserved ((ReserveInventory sampleStore reserveReq10 ("rid-1")
        ("t1")).1.inventory (invKey ("prod-001"))) = some 50 ∧
    invariantHolds ((ReserveInventory sampleStore reserveReq10 ("rid-1")
        ("t1")).1.inventory (invKey ("prod-001"))) = true ∧
    invTotal ((ReleaseInventory sampleStore releaseReq10 ("t1")).1.inventory
        (invKey ("prod-001"))) = some 50 ∧
    invAvailPlusReserved ((ReleaseInventory sampleStore releaseReq10 ("t1")).1.inventory
        (invKey ("prod-001"))) = some 50 ∧
    invariantHolds ((ReleaseInventory sampleStore releaseReq10 ("t1")).1.inventory
        (invKey ("prod-001"))) = true := by
  have h := reserve_release_preserve_invariant sampleStore sampleStore reserveReq10
    ("rid-1") ("t1") releaseReq10 ("t1") prod001 prod001 (by decide) (by decide) (by decide)
  exact ⟨h.1.1, h.1.2.1, h.1.2.2 (by decide), h.2.1, h.2.2.1, h.2.2.2 (by decide)⟩

/-- Effect of a sequence of successful reserve calls all targeting product
`p`: the product's record ends with available decreased by, and reserved
increased by, the total requested quantity. -/
lemma runReserves_effect (p : String)
    (calls : List (ReserveInventoryRequest × String × String)) :
    ∀ (st : StoreState) (inv : ProductInventory),
      (∀ c ∈ calls, c.1.product_id = p) →
      st.inventory (invKey p) = some inv →
      (runReserves st calls).2 = true →
      ∃ inv2, (runReserves st calls).1.inventory (invKey p) = some inv2 ∧
        inv2.available_quantity = inv.available_quantity - sumQuantities calls ∧
        inv2.reserved_quantity = inv.reserved_quantity + sumQuantities calls := by
  induction calls with
  | nil =>
      intro st inv _ hst _
      exact ⟨inv, by simpa [runReserves] using hst,
        by simp [sumQuantities], by simp [sumQuantities]⟩
  | cons c rest ih =>
      intro st inv hall hst hok
      have hp : c.1.product_id = p := hall c (by simp)
      by_cases hlt : inv.available_quantity < c.1.quantity
      · exfalso
        have hfail : (ReserveInventory st c.1 c.2.1 c.2.2).2.2.success = false := by
          simp [ReserveInventory, hp, hst, hlt]
        simp only [runReserves] at hok
        simp [hfail] at hok
      · have hstep : (ReserveInventory st c.1 c.2.1 c.2.2).1.inventory (invKey p) =
            some { inv with available_quantity := inv.available_quantity - c.1.quantity,
                            reserved_quantity := inv.reserved_quantity + c.1.quantity,
                            last_updated := c.2.2 } := by
          simp [ReserveInventory, hp, hst, hlt, saveInventory, saveReservation]
        have hok2 : (runReserves (ReserveInventory st c.1 c.2.1 c.2.2).1 rest).2 = true := by
          simp only [runReserves, Bool.and_eq_true] at hok
          exact hok.2
        obtain ⟨inv3, h1, h2, h3⟩ := ih (ReserveInventory st c.1 c.2.1 c.2.2).1 _
          (fun d hd => hall d (by simp [hd])) hstep hok2
        have hsum : sumQuantities (c :: rest) = c.1.quantity + sumQuantities rest := by
          simp [sumQuantities]
        refine ⟨inv3, ?_, ?_, ?_⟩
        · simp only [runReserves]
          exact h1
        · simp only [hsum]
          simp at h2
          omega
        · simp only [hsum]
          simp at h3
          omega

/-- C2 (amended): after any number of successful reserve calls on product `p`
totaling quantity Q, one release of Q on `p` returns `available_quantity` to
its pre-reservation value and returns `reserved_quantity` to its
pre-reservation value (hence to zero exactly when it started at zero), and the
release reports success. -/
theorem reserves_then_release_restores
    (st : StoreState) (p : String) (inv : ProductInventory)
    (calls : List (ReserveInventoryRequest × String × String))
    (reqL : ReleaseInventoryRequest) (now : String)
    (hcalls : ∀ c ∈ calls, c.1.product_id = p)
    (hst : st.inventory (invKey p) = some inv)
    (hok : (runReserves st calls).2 = true)
    (hLp : reqL.product_id = p)
    (hLq : reqL.quantity = sumQuantities calls) :
    invAvailable ((ReleaseInventory (runReserves st calls).1 reqL now).1.inventory
        (invKey p)) = some inv.available_quantity ∧
    invReserved ((ReleaseInventory (runReserves st calls).1 reqL now).1.inventory
        (invKey p)) = some inv.reserved_quantity ∧
    (ReleaseInventory (runReserves st calls).1 reqL now).2.2.success = true := by
  obtain ⟨inv2, h1, h2, h3⟩ := runReserves_effect p calls st inv hcalls hst hok
  have hrel : (ReleaseInventory (runReserves st calls).1 reqL now).1.inventory (invKey p) =
      some { inv2 with available_quantity := inv2.available_quantity + reqL.quantity,
                       reserved_quantity := inv2.reserved_quantity - reqL.quantity,
                       last_updated := now } := by
    unfold ReleaseInventory
    rw [hLp, h1]
    by_cases hid : reqL.reservation_id = "" <;>
      simp [hid, saveInventory, deleteReservation]
  have hsucc : (ReleaseInventory (runReserves st calls).1 reqL now).2.2.success = true := by
    simp [ReleaseInventory, hLp, h1]
  refine ⟨?_, ?_, hsucc⟩ <;> simp [hrel, invAvailable, invReserved] <;> omega

/-- Counterexample to C2 as stated: on "prod-001" holding available 45 and
reserved 5 (books balanced at total 50), one successful reserve of 10 followed
by a release of 10 brings available back to 45 but leaves reserved at 5, not
zero. -/
theorem reserves_then_release_cex :
    (runReserves sampleStoreR5 c2Calls).2 = true ∧
    (ReleaseInventory (runReserves sampleStoreR5 c2Calls).1 releaseReq10
        ("t2")).2.2.success = true ∧
    invReserved ((ReleaseInventory (runReserves sampleStoreR5 c2Calls).1 releaseReq10
        ("t2")).1.inventory (invKey ("prod-001"))) = some 5 ∧
    ((5 : Int) ≠ 0) := by decide

/-- Witness for the amended C2 at the spec's worked example: one reserve of 10
on the seeded "prod-001" (available 50, reserved 0) followed by a release of
10 restores available 50 and reserved 0, with the release succeeding. -/
theorem reserves_then_release_restores_witness :
    invAvailable ((ReleaseInventory (runReserves sampleStore c2Calls).1 releaseReq10
        ("t2")).1.inventory (invKey ("prod-001"))) = some 50 ∧
    invReserved ((ReleaseInventory (runReserves sampleStore c2Calls).1 releaseReq10
        ("t2")).1.inventory (invKey ("prod-001"))) = some 0 ∧
    (ReleaseInventory (runReserves sampleStore c2Calls).1 releaseReq10
        ("t2")).2.2.success = true :=
  reserves_then_release_restores sampleStore ("prod-001") prod001 c2Calls releaseReq10
    ("t2") (by decide) (by decide) (by decide) (by decide) (by decide)

/-- Error discipline of the `CheckAvailability` handler: an exception yields a
caught "Internal error" response with the INTERNAL status; an OK status always
carries either a positive answer or a business rejection with a descriptive
message; without collaborator faults the status is OK. -/
lemma checkRPC_discipline (faults : FaultModel) (st : StoreState)
    (req : CheckAvailabilityRequest) :
    ((checkAvailabilityRPC faults st req).2.2 = GrpcCode.internal →
      (checkAvailabilityRPC faults st req).2.1.available = false ∧
      (checkAvailabilityRPC faults st req).2.1.message = "Internal error") ∧
    ((checkAvailabilityRPC faults st req).2.2 = GrpcCode.ok →
      (checkAvailabilityRPC faults st req).2.1.available = true ∨
      ((checkAvailabilityRPC faults st req).2.1.available = false ∧
       ((checkAvailabilityRPC faults st req).2.1.message = "Product not found" ∨
        (checkAvailabilityRPC faults st req).2.1.message = "Insufficient inventory"))) ∧
    (faults = noFaults → (checkAvailabilityRPC faults st req).2.2 = GrpcCode.ok) := by
  obtain ⟨g, si, sr, dr, pe⟩ := faults
  cases g
  · rcases h : st.inventory (invKey req.product_id) with _ | inv
    · simp [checkAvailabilityRPC, CheckAvailability, h]
    · by_cases hq : inv.available_quantity ≥ req.quantity <;>
        simp [checkAvailabilityRPC, CheckAvailability, h, hq]
  · simp [checkAvailabilityRPC, noFaults]

/-- Error discipline of the `ReserveInventory` handler, as in
`checkRPC_discipline`. -/
lemma reserveRPC_discipline (faults : FaultModel) (st : StoreState)
    (req : ReserveInventoryRequest) (rid now : String) :
    ((reserveInventoryRPC faults st req rid now).2.2.2 = GrpcCode.internal →
      (reserveInventoryRPC faults st req rid now).2.2.1.success = false ∧
      (reserveInventoryRPC faults st req rid now).2.2.1.message = "Internal error") ∧
    ((reserveInventoryRPC faults st req rid now).2.2.2 = GrpcCode.ok →
      (reserveInventoryRPC faults st req rid now).2.2.1.success = true ∨
      ((reserveInventoryRPC faults st req rid now).2.2.1.success = false ∧
       ((reserveInventoryRPC faults st req rid now).2.2.1.message = "Product not found" ∨
        (reserveInventoryRPC faults st req rid now).2.2.1.message = "Insufficient inventory"))) ∧
    (faults = noFaults →
      (reserveInventoryRPC faults st req rid now).2.2.2 = GrpcCode.ok) := by
  obtain ⟨g, si, sr, dr, pe⟩ := faults
  cases g
  · rcases h : st.inventory (invKey req.product_id) with _ | inv
    · simp [reserveInventoryRPC, h]
    · by_cases hlt : inv.available_quantity < req.quantity
      · simp [reserveInventoryRPC, h, hlt]
      · cases si
        · cases sr
          · simp [reserveInventoryRPC, h, hlt]
          · simp [reserveInventoryRPC, h, hlt, noFaults]
        · simp [reserveInventoryRPC, h, hlt, noFaults]
  · simp [reserveInventoryRPC, noFaults]

/-- Error discipline of the `ReleaseInventory` handler, as in
`checkRPC_discipline`. -/
lemma releaseRPC_discipline (faults : FaultModel) (st : StoreState)
    (req : ReleaseInventoryRequest) (now : String) :
    ((releaseInventoryRPC faults st req now).2.2.2 = GrpcCode.internal →
      (releaseInventoryRPC faults st req now).2.2.1.success = false ∧
      (releaseInventoryRPC faults st req now).2.2.1.message = "Internal error") ∧
    ((releaseInventoryRPC faults st req now).2.2.2 = GrpcCode.ok →
      (releaseInventoryRPC faults st req now).2.2.1.success = true ∨
      ((releaseInventoryRPC faults st req now).2.2.1.success = false ∧
       ((releaseInventoryRPC faults st req now).2.2.1.message = "Product not found" ∨
        (releaseInventoryRPC faults st req now).2.2.1.message = "Insufficient inventory"))) ∧
    (faults = noFaults →
      (releaseInventoryRPC faults st req now).2.2.2 = GrpcCode.ok) := by
  obtain ⟨g, si, sr, dr, pe⟩ := faults
  cases g
  · rcases h : st.inventory (invKey req.product_id) with _ | inv
    · simp [releaseInventoryRPC, h]
    · cases si
      · cases dr
        · simp [releaseInventoryRPC, h]
        · by_cases hid : req.reservation_id = "" <;>
            simp [releaseInventoryRPC, h, hid, noFaults]
      · simp [releaseInventoryRPC, h, noFaults]
  · simp [releaseInventoryRPC, noFaults]

/-- Error discipline of the `UpdateInventory` handler, as in
`checkRPC_discipline`. -/
lemma updateRPC_discipline (faults : FaultModel) (st : StoreState)
    (req : UpdateInventoryRequest) (now : String) :
    ((updateInventoryRPC faults st req now).2.2.2 = GrpcCode.internal →
      (updateInventoryRPC faults st req now).2.2.1.success = false ∧
      (updateInventoryRPC faults st req now).2.2.1.message = "Internal error") ∧
    ((updateInventoryRPC faults st req now).2.2.2 = GrpcCode.ok →
      (updateInventoryRPC faults st req now).2.2.1.success = true ∨
      ((updateInventoryRPC faults st req now).2.2.1.success = false ∧
       ((updateInventoryRPC faults st req now).2.2.1.message = "Product not found" ∨
        (updateInventoryRPC faults st req now).2.2.1.message = "Insufficient inventory"))) ∧
    (faults = noFaults →
      (updateInventoryRPC faults st req now).2.2.2 = GrpcCode.ok) := by
  obtain ⟨g, si, sr, dr, pe⟩ := faults
  cases g
  · rcases h : st.inventory (invKey req.product_id) with _ | inv
    · simp [updateInventoryRPC, h]
    · cases si
      · simp [updateInventoryRPC, h]
      · simp [updateInventoryRPC, h, noFaults]
  · simp [updateInventoryRPC, noFaults]

/-- Error discipline of the `GetInventory` handler, as in
`checkRPC_discipline`. -/
lemma getRPC_discipline (faults : FaultModel) (st : StoreState)
    (req : GetInventoryRequest) :
    ((getInventoryRPC faults st req).2.2 = GrpcCode.internal →
      (getInventoryRPC faults st req).2.1.success = false ∧
      (getInventoryRPC faults st req).2.1.message = "Internal error") ∧
    ((getInventoryRPC faults st req).2.2 = GrpcCode.ok →
      (getInventoryRPC faults st req).2.1.success = true ∨
      ((getInventoryRPC faults st req).2.1.success = false ∧
       ((getInventoryRPC faults st req).2.1.message = "Product not found" ∨
        (getInventoryRPC faults st req).2.1.message = "Insufficient inventory"))) ∧
    (faults = noFaults → (getInventoryRPC faults st req).2.2 = GrpcCode.ok) := by
  obtain ⟨g, si, sr, dr, pe⟩ := faults
  cases g
  · rcases h : st.inventory (invKey req.product_id) with _ | inv <;>
      simp [getInventoryRPC, GetInventory, h]
  · simp [getInventoryRPC, noFaults]

/-- C8: every one of the five handlers of the service is a total function of
the injected collaborator faults — no exception escapes the `try/except`, so
no request crashes the request-handling loop — and for each of the five
operations: expected business failures ("Product not found", "Insufficient
inventory") are returned as a success=false (resp. available=false) response
with a descriptive message under the OK transport status, never as a
transport-level fault; an unexpected collaborator exception is caught and
returned as a success=false "Internal error" response additionally surfaced
as the distinct INTERNAL transport status; and with no collaborator faults
the status is OK. -/
theorem service_error_discipline (faults : FaultModel) (st : StoreState)
    (reqC : CheckAvailabilityRequest) (reqR : ReserveInventoryRequest)
    (reqL : ReleaseInventoryRequest) (reqU : UpdateInventoryRequest)
    (reqG : GetInventoryRequest) (rid now : String) :
    (((checkAvailabilityRPC faults st reqC).2.2 = GrpcCode.internal →
       (checkAvailabilityRPC faults st reqC).2.1.available = false ∧
       (checkAvailabilityRPC faults st reqC).2.1.message = "Internal error") ∧
     ((checkAvailabilityRPC faults st reqC).2.2 = GrpcCode.ok →
       (checkAvailabilityRPC faults st reqC).2.1.available = true ∨
       ((checkAvailabilityRPC faults st reqC).2.1.available = false ∧
        ((checkAvailabilityRPC faults st reqC).2.1.message = "Product not found" ∨
         (checkAvailabilityRPC faults st reqC).2.1.message = "Insufficient inventory"))) ∧
     (faults = noFaults → (checkAvailabilityRPC faults st reqC).2.2 = GrpcCode.ok)) ∧
    (((reserveInventoryRPC faults st reqR rid now).2.2.2 = GrpcCode.internal →
       (reserveInventoryRPC faults st reqR rid now).2.2.1.success = false ∧
       (reserveInventoryRPC faults st reqR rid now).2.2.1.message = "Internal error") ∧
     ((reserveInventoryRPC faults st reqR rid now).2.2.2 = GrpcCode.ok →
       (reserveInventoryRPC faults st reqR rid now).2.2.1.success = true ∨
       ((reserveInventoryRPC faults st reqR rid now).2.2.1.success = false ∧
        ((reserveInventoryRPC faults st reqR rid now).2.2.1.message = "Product not found" ∨
         (reserveInventoryRPC faults st reqR rid now).2.2.1.message =
           "Insufficient inventory"))) ∧
     (faults = noFaults →
       (reserveInventoryRPC faults st reqR rid now).2.2.2 = GrpcCode.ok)) ∧
    (((releaseInventoryRPC faults st reqL now).2.2.2 = GrpcCode.internal →
       (releaseInventoryRPC faults st reqL now).2.2.1.success = false ∧
       (releaseInventoryRPC faults st reqL now).2.2.1.message = "Internal error") ∧
     ((releaseInventoryRPC faults st reqL now).2.2.2 = GrpcCode.ok →
       (releaseInventoryRPC faults st reqL now).2.2.1.success = true ∨
       ((releaseInventoryRPC faults st reqL now).2.2.1.success = false ∧
        ((releaseInventoryRPC faults st reqL now).2.2.1.message = "Product not found" ∨
         (releaseInventoryRPC faults st reqL now).2.2.1.message =
           "Insufficient inventory"))) ∧
     (faults = noFaults →
       (releaseInventoryRPC faults st reqL now).2.2.2 = GrpcCode.ok)) ∧
    (((updateInventoryRPC faults st reqU now).2.2.2 = GrpcCode.internal →
       (updateInventoryRPC faults st reqU now).2.2.1.success = false ∧
       (updateInventoryRPC faults st reqU now).2.2.1.message = "Internal error") ∧
     ((updateInventoryRPC faults st reqU now).2.2.2 = GrpcCode.ok →
       (updateInventoryRPC faults st reqU now).2.2.1.success = true ∨
       ((updateInventoryRPC faults st reqU now).2.2.1.success = false ∧
        ((updateInventoryRPC faults st reqU now).2.2.1.message = "Product not found" ∨
         (updateInventoryRPC faults st reqU now).2.2.1.message =
           "Insufficient inventory"))) ∧
     (faults = noFaults →
       (updateInventoryRPC faults st reqU now).2.2.2 = GrpcCode.ok)) ∧
    (((getInventoryRPC faults st reqG).2.2 = GrpcCode.internal →
       (getInventoryRPC faults st reqG).2.1.success = false ∧
       (getInventoryRPC faults st reqG).2.1.message = "Internal error") ∧
     ((getInventoryRPC faults st reqG).2.2 = GrpcCode.ok →
       (getInventoryRPC faults st reqG).2.1.success = true ∨
       ((getInventoryRPC faults st reqG).2.1.success = false ∧
        ((getInventoryRPC faults st reqG).2.1.message = "Product not found" ∨
         (getInventoryRPC faults st reqG).2.1.message = "Insufficient inventory"))) ∧
     (faults = noFaults → (getInventoryRPC faults st reqG).2.2 = GrpcCode.ok)) :=
  ⟨checkRPC_discipline faults st reqC,
   reserveRPC_discipline faults st reqR rid now,
   releaseRPC_discipline faults st reqL now,
   updateRPC_discipline faults st reqU now,
   getRPC_discipline faults st reqG⟩

/-- Witness for C8: with a raising `get_state`, the reserve and get handlers
each return a caught success=false "Internal error" response under the
INTERNAL status; with no faults both return the OK status. -/
theorem service_error_discipline_witness :
    (reserveInventoryRPC faultGet sampleStore reserveReq10 ("rid-1") ("t1")).2.2.1.success =
      false ∧
    (reserveInventoryRPC faultGet sampleStore reserveReq10 ("rid-1")
        ("t1")).2.2.1.message = "Internal error" ∧
    (reserveInventoryRPC noFaults sampleStore reserveReq10 ("rid-1") ("t1")).2.2.2 =
      GrpcCode.ok ∧
    (getInventoryRPC faultGet sampleStore getReq001).2.1.success = false ∧
    (getInventoryRPC faultGet sampleStore getReq001).2.1.message = "Internal error" ∧
    (getInventoryRPC noFaults sampleStore getReq001).2.2 = GrpcCode.ok := by
  have h := service_error_discipline faultGet sampleStore checkReq10 reserveReq10
    releaseReq10 updateReqNeg48 getReq001 ("rid-1") ("t1")
  have h0 := service_error_discipline noFaults sampleStore checkReq10 reserveReq10
    releaseReq10 updateReqNeg48 getReq001 ("rid-1") ("t1")
  exact ⟨(h.2.1.1 (by decide)).1, (h.2.1.1 (by decide)).2, h0.2.1.2.2 (by decide),
    (h.2.2.2.2.1 (by decide)).1, (h.2.2.2.2.1 (by decide)).2,
    h0.2.2.2.2.2.2 (by decide)⟩
